import Mathlib

/-!
Verification development for the yunjin_sd_api repository.

The repository ships a browser client (src/static/js/api.js, src/static/js/app.js)
for an asynchronous Stable-Diffusion image-generation HTTP service, together with
API documentation. The client code is embedded below directly; the server-side
orchestrator (request normalizer, task registry, status query) is not present in
the repository, so the definitions concerning it are modelled from the spec and
the shipped API document, and are marked as such in their doc comments.

JavaScript values appearing in request payloads are modelled by `JVal`:
numbers are rationals (JS numbers on the inputs used here are exact decimals),
with a separate constructor for NaN, since NaN has its own truthiness and its
own JSON serialization behavior.
-/

namespace YunjinSD

/-- Model of a JavaScript value as it occurs in the client's request payloads.
`vNaN` is kept separate from `vNum` because NaN is falsy and serializes to
the JSON literal null. -/
inductive JVal where
  | vNull
  | vNaN
  | vBool (b : Bool)
  | vNum (q : ℚ)
  | vStr (s : String)
deriving DecidableEq, Repr

/-- JavaScript truthiness of a `JVal` (null, NaN, false, 0 and "" are falsy). -/
def vtruthy : JVal → Bool
  | .vNull => false
  | .vNaN => false
  | .vBool b => b
  | .vNum q => !(q == 0)
  | .vStr s => !(s == "")

/-- Truthiness of a possibly-absent object member (an absent member reads as
undefined, which is falsy). -/
def truthy : Option JVal → Bool
  | none => false
  | some v => vtruthy v

/-- `JSON.stringify` maps both null and NaN to the JSON literal null; every
other `JVal` serializes to a non-null JSON value. -/
def serializesToNull : JVal → Bool
  | .vNull => true
  | .vNaN => true
  | _ => false

/-- ASCII whitespace, as far as the inputs of this client are concerned. -/
def isJsWs (c : Char) : Bool :=
  c == ' ' || c == '\t' || c == '\n' || c == '\r'

/-- Model of JavaScript `s.trim()`: strip whitespace from both ends. -/
def jsTrim (s : String) : String :=
  String.mk (((s.data.dropWhile isJsWs).reverse.dropWhile isJsWs).reverse)

/-- A JavaScript object literal, as an ordered association list of members. -/
abbrev JObj := List (String × JVal)

/-- Property read `obj[k]`: the first member named `k`, if any. -/
def jGet (l : JObj) (k : String) : Option JVal :=
  (l.find? (fun p => p.1 == k)).map Prod.snd

/-- `delete obj[k]`: removes the member named `k`. -/
def jDel (k : String) (l : JObj) : JObj :=
  l.filter (fun p => !(p.1 == k))

/-- Numeric value of a block of decimal digit characters. -/
def digitsVal (ds : List Char) : Nat :=
  ds.foldl (fun a c => a * 10 + (c.toNat - 48)) 0

/-- Model of JavaScript `parseInt(s)` (radix 10): skip surrounding whitespace,
an optional sign, then consume leading decimal digits; `none` models NaN. -/
def jsParseInt (s : String) : Option Int :=
  let cs := (jsTrim s).data
  let signedRest : Int × List Char :=
    match cs with
    | '-' :: r => (-1, r)
    | '+' :: r => (1, r)
    | r => (1, r)
  let ds := signedRest.2.takeWhile Char.isDigit
  if ds.isEmpty then none
  else some (signedRest.1 * (digitsVal ds : Int))

/-- Model of JavaScript `parseFloat(s)` on plain decimal literals: optional
sign, integer digits, optional fractional digits; `none` models NaN. -/
def jsParseFloat (s : String) : Option ℚ :=
  let cs := (jsTrim s).data
  let signedRest : ℚ × List Char :=
    match cs with
    | '-' :: r => (-1, r)
    | '+' :: r => (1, r)
    | r => (1, r)
  let intPart := signedRest.2.takeWhile Char.isDigit
  let rest2 := signedRest.2.dropWhile Char.isDigit
  let fracPart : List Char :=
    match rest2 with
    | '.' :: r => r.takeWhile Char.isDigit
    | _ => []
  if intPart.isEmpty && fracPart.isEmpty then none
  else some (signedRest.1 * ((digitsVal intPart : ℚ) +
    (digitsVal fracPart : ℚ) / ((10 : ℚ) ^ fracPart.length)))

/-- The JS idiom `value.trim() || null` used for the prompt text fields. -/
def trimOrNull (s : String) : JVal :=
  if jsTrim s == "" then .vNull else .vStr (jsTrim s)

/-- The JS idiom `value || null` used for the scheduler select. -/
def strOrNull (s : String) : JVal :=
  if s == "" then .vNull else .vStr s

/-- The JS idiom `parseInt(value) || null` (NaN and 0 are falsy). -/
def parseIntOrNull (s : String) : JVal :=
  match jsParseInt s with
  | none => .vNull
  | some n => if n == 0 then .vNull else .vNum (n : ℚ)

/-- The JS idiom `parseFloat(value) || null` (NaN and 0 are falsy). -/
def parseFloatOrNull (s : String) : JVal :=
  match jsParseFloat s with
  | none => .vNull
  | some q => if q == 0 then .vNull else .vNum q

/-- The JS idiom `parseInt(value) || 1` used for the num_images inputs. -/
def parseIntOr1 (s : String) : JVal :=
  match jsParseInt s with
  | none => .vNum 1
  | some n => if n == 0 then .vNum 1 else .vNum (n : ℚ)

/-- The JS idiom `value ? parseInt(value) : null` used for the seed inputs:
a non-empty unparsable string yields NaN, which is kept. -/
def seedField (s : String) : JVal :=
  if s == "" then .vNull
  else match jsParseInt s with
    | none => .vNaN
    | some n => .vNum (n : ℚ)

/-- The JS idiom `val !== '' ? parseFloat(val) : null` used for the strength
input: a non-empty unparsable string yields NaN, which is kept. -/
def strengthField (s : String) : JVal :=
  if s == "" then .vNull
  else match jsParseFloat s with
    | none => .vNaN
    | some q => .vNum q

/-- The JS idiom `checkedValue || 'png'` used for the output-format radios. -/
def formatField (s : String) : JVal :=
  if s == "" then .vStr "png" else .vStr s

/-- The raw input values of the text-to-image form (app.js, handleText2ImgSubmit). -/
structure T2IForm where
  naturalLanguage : String
  prompt : String
  negativePrompt : String
  width : String
  height : String
  numImages : String
  steps : String
  guidance : String
  scheduler : String
  seed : String
  outputFormat : String
  callback : String
deriving Repr

/-- The raw input values of the image-to-image form (app.js, handleImg2ImgSubmit);
`initImage` is the base64 data URL read from the uploaded file. -/
structure I2IForm where
  naturalLanguage : String
  initImage : String
  prompt : String
  negativePrompt : String
  numImages : String
  steps : String
  guidance : String
  strength : String
  scheduler : String
  seed : String
  outputFormat : String
  callback : String
deriving Repr

/-- The `formData` object literal built by handleText2ImgSubmit
(app.js lines 144-157), member by member in source order. -/
def text2imgFormData (f : T2IForm) : JObj :=
  [ ("natural_language", .vStr (jsTrim f.naturalLanguage)),
    ("prompt", trimOrNull f.prompt),
    ("negative_prompt", trimOrNull f.negativePrompt),
    ("width", parseIntOrNull f.width),
    ("height", parseIntOrNull f.height),
    ("num_images", parseIntOr1 f.numImages),
    ("num_inference_steps", parseIntOrNull f.steps),
    ("guidance_scale", parseFloatOrNull f.guidance),
    ("scheduler", strOrNull f.scheduler),
    ("seed", seedField f.seed),
    ("output_format", formatField f.outputFormat),
    ("callback_url", trimOrNull f.callback) ]

/-- The `formData` object literal built by handleImg2ImgSubmit
(app.js lines 196-212), member by member in source order. -/
def img2imgFormData (f : I2IForm) : JObj :=
  [ ("natural_language", .vStr (jsTrim f.naturalLanguage)),
    ("init_image", .vStr f.initImage),
    ("prompt", trimOrNull f.prompt),
    ("negative_prompt", trimOrNull f.negativePrompt),
    ("num_images", parseIntOr1 f.numImages),
    ("num_inference_steps", parseIntOrNull f.steps),
    ("guidance_scale", parseFloatOrNull f.guidance),
    ("strength", strengthField f.strength),
    ("scheduler", strOrNull f.scheduler),
    ("seed", seedField f.seed),
    ("output_format", formatField f.outputFormat),
    ("callback_url", trimOrNull f.callback) ]

/-- The payload-cleaning step of submitGenerateRequest (app.js lines 276-281):
every member whose value is strictly null or the empty string is deleted; the
surviving object is what is JSON-serialized into the POST body. -/
def submitGenerateRequest (fd : JObj) : JObj :=
  fd.filter (fun p => !(p.2 == JVal.vNull) && !(p.2 == JVal.vStr ""))

/-- The prompt-priority rewriting shared by both submit handlers
(app.js lines 159-174 and 214-229): abort (`none`) when both the trimmed
natural-language text and the prompt are falsy; otherwise, when the prompt is
truthy delete natural_language (and an empty negative_prompt), else when the
natural-language text is truthy delete the empty prompt/negative_prompt; then
hand the object to submitGenerateRequest, whose result is the POSTed body. -/
def finalizeAndSubmit (fd : JObj) : Option JObj :=
  if !truthy (jGet fd "natural_language") && !truthy (jGet fd "prompt") then
    none
  else
    let fd1 :=
      if truthy (jGet fd "prompt") then
        let fdA := jDel "natural_language" fd
        if !truthy (jGet fdA "negative_prompt") then jDel "negative_prompt" fdA else fdA
      else if truthy (jGet fd "natural_language") then
        let fdA := if !truthy (jGet fd "prompt") then jDel "prompt" fd else fd
        if !truthy (jGet fdA "negative_prompt") then jDel "negative_prompt" fdA else fdA
      else fd
    some (submitGenerateRequest fd1)

/-- handleText2ImgSubmit (app.js lines 141-181), modelled as the POST body it
causes to be sent, or `none` when the submission is aborted before any
network call. -/
def handleText2ImgSubmit (f : T2IForm) : Option JObj :=
  finalizeAndSubmit (text2imgFormData f)

/-- handleImg2ImgSubmit (app.js lines 183-236), modelled as the POST body it
causes to be sent, or `none` when the submission is aborted before any
network call. -/
def handleImg2ImgSubmit (f : I2IForm) : Option JObj :=
  finalizeAndSubmit (img2imgFormData f)

/-! ## The fetch wrappers of api.js -/

/-- An HTTP response as the api.js wrappers observe it: the ok flag, the
numeric status, the statusText, and the body — `some obj` when the body
parses as a JSON object, `none` when `response.json()` rejects. -/
structure JsResponse where
  ok : Bool
  status : Nat
  statusText : String
  body : Option JObj
deriving DecidableEq, Repr

/-- String conversion applied by `new Error(x)` to the thrown message value. -/
def jsToString : JVal → String
  | .vNull => "null"
  | .vNaN => "NaN"
  | .vBool b => if b then "true" else "false"
  | .vNum q => toString q
  | .vStr s => s

/-- The error message thrown by both api.js wrappers on a non-ok response
(api.js lines 36-39 and 53-56): the parsed body's `detail` member when
truthy — on an unparseable body `detail` is substituted by the statusText —
falling back to `HTTP <status>` when that value is falsy. -/
def fetchErrMessage (r : JsResponse) : String :=
  let errDetail : Option JVal :=
    match r.body with
    | some obj => jGet obj "detail"
    | none => some (.vStr r.statusText)
  match errDetail with
  | some v => if vtruthy v then jsToString v else "HTTP " ++ toString r.status
  | none => "HTTP " ++ toString r.status

/-- Outcome of an api.js wrapper call: resolved with a parsed body, rejected
with a thrown `Error` message, or rejected with the `response.json()` parse
error on an ok response whose body is not JSON. -/
inductive FetchResult where
  | resolved (body : JObj)
  | thrown (message : String)
  | jsonRejected
deriving DecidableEq, Repr

/-- API.generateImage (api.js lines 29-42), as a function of the response the
POST to /api/v1/generate produced. -/
def generateImage (r : JsResponse) : FetchResult :=
  if r.ok then
    match r.body with
    | some obj => .resolved obj
    | none => .jsonRejected
  else .thrown (fetchErrMessage r)

/-- API.getTaskStatus (api.js lines 47-59), as a function of the response the
GET of /api/v1/tasks/{task_id} produced. -/
def getTaskStatus (r : JsResponse) : FetchResult :=
  if r.ok then
    match r.body with
    | some obj => .resolved obj
    | none => .jsonRejected
  else .thrown (fetchErrMessage r)

/-! ## Polling, history and the result renderer of app.js -/

/-- The polling period startPolling passes to setInterval (app.js line 325). -/
def pollIntervalMs : Nat := 2000

/-- checkTaskStatus (app.js lines 328-366), as its effect on the polling
interval: given whether the interval is currently running and the outcome of
the status query (`Except.error` models a thrown fetch/status error, `.ok`
carries the fetched status string), returns whether the interval is still
running afterwards. The interval is cleared on status completed or failed
and in the catch block; any other status leaves it untouched. -/
def checkTaskStatus (polling : Bool) (outcome : Except String String) : Bool :=
  match outcome with
  | .ok st => if st == "completed" || st == "failed" then false else polling
  | .error _ => false

/-- One entry of the client task history, with the fields the call site in
submitGenerateRequest supplies (app.js lines 288-293). -/
structure HistoryItem where
  taskId : String
  status : String
  timestamp : String
  params : JObj
deriving DecidableEq, Repr

/-- addToHistory (app.js lines 654-660): unshift the new task, then cut the
list back to 20 entries when it got longer. -/
def addToHistory (t : HistoryItem) (h : List HistoryItem) : List HistoryItem :=
  if (t :: h).length > 20 then (t :: h).take 20 else (t :: h)

/-- The URL list showResult renders (app.js line 427):
`status.result_url ? [status.result_url] : (status.result_urls || [])`.
Absent members and the empty string are falsy. -/
def showResult (result_url : Option String) (result_urls : Option (List String)) :
    List String :=
  match result_url with
  | some u => if u == "" then result_urls.getD [] else [u]
  | none => result_urls.getD []

/-! ## Server-side definitions modelled from the spec

The asynchronous orchestrator itself (normalizer, task registry, status
query) is not part of the repository's sources; only the client and the API
document are. The definitions in this section are therefore modelled from
the spec's words and the shipped API document, and each doc comment says so. -/

/-- Modelled from the spec: the Status Query API's result-field shape (§4.5,
§4.7 and the API document's 查询任务状态 examples) — the server code is absent
from the repository. When `num_images` was 1 the view carries the single URL
in `result_url` and a null `result_urls`; otherwise `result_url` is null and
`result_urls` carries the collection. -/
def taskViewResultFields (num_images : Nat) (urls : List String) :
    Option String × Option (List String) :=
  if num_images = 1 then (urls.head?, none) else (none, some urls)

/-- A task record of the registry, as far as the claims need it. -/
structure Task where
  id : Nat
  status : String
  prompt : String
deriving DecidableEq, Repr

/-- Modelled from the spec: request admission (§4.1, §7) — the server code is
absent from the repository. Given the translator collaborator, the registry
contents and the optional prompt / natural-language text, either fail with
the ValidationError message `missing prompt` leaving the registry unchanged
(the task is never created), or create a pending task. -/
def submitGenerate (translate : String → String × String) (registry : List Task)
    (prompt natural : Option String) : List Task × Except String Nat :=
  match prompt, natural with
  | none, none => (registry, .error "missing prompt")
  | some p, _ =>
      (registry ++ [⟨registry.length, "pending", p⟩], .ok registry.length)
  | none, some t =>
      (registry ++ [⟨registry.length, "pending", (translate t).1⟩], .ok registry.length)

/-- Modelled from the spec: num_images defaulting and range validation (§4.1)
— the server code is absent from the repository. An omitted num_images
defaults to 1; a supplied value outside [1,10] fails with the
ValidationError message `num_images out of range`. -/
def validateNumImages (n : Option Int) : Except String Int :=
  match n with
  | none => .ok 1
  | some k => if 1 ≤ k ∧ k ≤ 10 then .ok k else .error "num_images out of range"

/-- The separator `, ` the normalizer joins prepended trigger words with. -/
def twSep : List Char := [',', ' ']

/-- Modelled from the spec: trigger-word injection of the Request Normalizer
(§4.1 and the API document's 避免重复 section) — the server code is absent
from the repository. Prompts are character sequences; this is the set of
configured trigger words not already present in the prompt as an exact,
case-sensitive substring. -/
def missingTriggerWords (words : List (List Char)) (p : List Char) :
    List (List Char) :=
  words.filter (fun w => !(decide (w <:+: p)))

/-- Modelled from the spec (continued): the injection itself — prepend the
missing trigger words, joined by `, `, in front of the prompt; a prompt
missing none of them is returned unchanged. -/
def injectTriggerWords (words : List (List Char)) (p : List Char) : List Char :=
  if missingTriggerWords words p = [] then p
  else List.intercalate twSep (missingTriggerWords words p) ++ twSep ++ p

/-! ## Helper lemmas -/

/-- A key absent from an object's keys stays absent after any filter. -/
theorem not_mem_keys_filter {l : JObj} {k : String} (q : String × JVal → Bool)
    (h : k ∉ l.map Prod.fst) : k ∉ (l.filter q).map Prod.fst := by
  intro hmem
  rcases List.mem_map.mp hmem with ⟨p, hp, hk⟩
  exact h (List.mem_map.mpr ⟨p, (List.mem_filter.mp hp).1, hk⟩)

/-- Deleting a key removes it from the object's keys. -/
theorem not_mem_keys_jDel (l : JObj) (k : String) : k ∉ (jDel k l).map Prod.fst := by
  intro hmem
  rcases List.mem_map.mp hmem with ⟨p, hp, hk⟩
  have := (List.mem_filter.mp hp).2
  simp [hk] at this

/-- One addToHistory call never leaves more than 20 entries behind. -/
theorem addToHistory_length_le (t : HistoryItem) (h : List HistoryItem) :
    (addToHistory t h).length ≤ 20 := by
  unfold addToHistory
  split
  · simp [Nat.min_le_left]
  · next hgt => simp at hgt ⊢; omega

/-- When the prompt member is truthy, finalizeAndSubmit always takes the
prompt-priority branch, which deletes natural_language before the POST. -/
theorem finalize_no_natural_of_prompt (fd : JObj)
    (h : truthy (jGet fd "prompt") = true) (b : JObj)
    (hb : finalizeAndSubmit fd = some b) :
    "natural_language" ∉ b.map Prod.fst := by
  have hsub : ∀ l : JObj, "natural_language" ∉ l.map Prod.fst →
      "natural_language" ∉ (submitGenerateRequest l).map Prod.fst :=
    fun l hl => not_mem_keys_filter _ hl
  have hdel : ∀ (l : JObj) (k : String), "natural_language" ∉ l.map Prod.fst →
      "natural_language" ∉ (jDel k l).map Prod.fst :=
    fun l k hl => not_mem_keys_filter _ hl
  unfold finalizeAndSubmit at hb
  rw [h] at hb
  simp only [Bool.not_true, Bool.and_false, Bool.false_eq_true, if_false, if_true] at hb
  split at hb <;> rw [Option.some_inj] at hb <;> subst hb
  · exact hsub _ (hdel _ _ (not_mem_keys_jDel fd "natural_language"))
  · exact hsub _ (not_mem_keys_jDel fd "natural_language")

/-- A list of characters is a substring of any extension on the left. -/
theorem subInAppendLeft {w p : List Char} (x : List Char) (h : w <:+: p) :
    w <:+: x ++ p := by
  obtain ⟨s, t, rfl⟩ := h
  exact ⟨x ++ s, t, by simp⟩

/-- A list of characters is a substring of any extension on the right. -/
theorem subInAppendRight {w p : List Char} (x : List Char) (h : w <:+: p) :
    w <:+: p ++ x := by
  obtain ⟨s, t, rfl⟩ := h
  exact ⟨s, t ++ x, by simp⟩

/-- Unfolding List.intercalate over a cons with a non-empty tail. -/
theorem intercalate_cons_of_ne (sep a : List Char) {tl : List (List Char)}
    (h : tl ≠ []) :
    List.intercalate sep (a :: tl) = a ++ sep ++ List.intercalate sep tl := by
  cases tl with
  | nil => exact absurd rfl h
  | cons b tl2 =>
    simp [List.intercalate, List.intersperse, List.append_assoc]

/-- Every word of a list is a substring of the list's intercalation. -/
theorem subInIntercalate (sep : List Char) {w : List Char}
    {l : List (List Char)} (h : w ∈ l) :
    w <:+: List.intercalate sep l := by
  induction l with
  | nil => cases h
  | cons a tl ih =>
    rcases List.mem_cons.mp h with rfl | hmem
    · cases tl with
      | nil =>
        have : List.intercalate sep [w] = w := by
          simp [List.intercalate, List.intersperse]
        rw [this]
      | cons b tl2 =>
        rw [intercalate_cons_of_ne sep w (by simp)]
        exact subInAppendRight _ (subInAppendRight _ ⟨[], [], by simp⟩)
    · have htl : tl ≠ [] := by
        rintro rfl
        cases hmem
      rw [intercalate_cons_of_ne sep a htl]
      have h1 := subInAppendLeft (a ++ sep) (ih hmem)
      simpa [List.append_assoc] using h1

/-- After injection, every configured trigger word occurs in the prompt. -/
theorem subInInject (words : List (List Char)) (p : List Char) {w : List Char}
    (hw : w ∈ words) : w <:+: injectTriggerWords words p := by
  unfold injectTriggerWords
  split
  · next hnil =>
    have := List.filter_eq_nil_iff.mp hnil w hw
    simpa using this
  · next hne =>
    by_cases hp : w <:+: p
    · exact subInAppendLeft _ hp
    · have hmem : w ∈ missingTriggerWords words p :=
        List.mem_filter.mpr ⟨hw, by simpa using hp⟩
      exact subInAppendRight _ (subInAppendRight _ (subInIntercalate twSep hmem))

/-! ## Claim theorems -/

/-- C5: mode selection is derived from init_image only — the text-to-image
form builder never includes a strength (or init_image) member, and the
image-to-image form builder includes init_image but never width or height. -/
theorem c5_mode_fields (f : T2IForm) (g : I2IForm) :
    "strength" ∉ (text2imgFormData f).map Prod.fst
  ∧ "init_image" ∉ (text2imgFormData f).map Prod.fst
  ∧ "init_image" ∈ (img2imgFormData g).map Prod.fst
  ∧ "width" ∉ (img2imgFormData g).map Prod.fst
  ∧ "height" ∉ (img2imgFormData g).map Prod.fst := by
  refine ⟨?_, ?_, ?_, ?_, ?_⟩ <;> simp [text2imgFormData, img2imgFormData]

/-- C8: checkTaskStatus clears the polling interval (started by startPolling
with a 2000 ms period) exactly when the status query throws or the fetched
status is completed or failed; every other fetched status leaves the
interval running. -/
theorem c8_polling_terminal (o : Except String String) :
    (checkTaskStatus true o = false ↔
      (∃ msg, o = .error msg) ∨ o = .ok "completed" ∨ o = .ok "failed")
  ∧ pollIntervalMs = 2000 := by
  refine ⟨?_, rfl⟩
  cases o with
  | error msg => simp [checkTaskStatus]
  | ok st =>
    by_cases h1 : st = "completed" <;> by_cases h2 : st = "failed" <;>
      simp [checkTaskStatus, h1, h2]

/-- C9 (amended): submitGenerateRequest deletes every member whose value is
null or the empty string, so the POSTed object itself carries no null-valued
and no empty-string member (NaN members, which later serialize to JSON null,
are the one thing it lets through). -/
theorem c9_cleanup_no_null_no_empty (fd : JObj) (p : String × JVal)
    (hp : p ∈ submitGenerateRequest fd) :
    p.2 ≠ JVal.vNull ∧ p.2 ≠ JVal.vStr "" := by
  have hc : p ∈ fd ∧ ¬p.2 = JVal.vNull ∧ ¬p.2 = JVal.vStr "" := by
    simpa [submitGenerateRequest] using hp
  exact ⟨hc.2.1, hc.2.2⟩

/-- C9 witness: the amended cleanup theorem applied to a one-member payload. -/
theorem c9_cleanup_no_null_no_empty_witness :
    ("prompt", JVal.vStr "a cat").2 ≠ JVal.vNull
  ∧ ("prompt", JVal.vStr "a cat").2 ≠ JVal.vStr "" :=
  c9_cleanup_no_null_no_empty [("prompt", JVal.vStr "a cat")]
    ("prompt", JVal.vStr "a cat") (by decide)

/-- C9 counterexample: on the text-to-image form whose seed input is the
non-empty unparsable string "abc", the POSTed object still contains a seed
member holding NaN, and NaN serializes to the JSON literal null — so the
body sent to /api/v1/generate does contain a null-valued field, refuting the
claim as stated. -/
theorem c9_nan_seed_counterexample :
    handleText2ImgSubmit ⟨"a cat", "", "", "", "", "", "", "", "", "abc", "", ""⟩ =
      some [("natural_language", .vStr "a cat"), ("num_images", .vNum 1),
            ("seed", .vNaN), ("output_format", .vStr "png")]
  ∧ ("seed", JVal.vNaN) ∈
      ([("natural_language", JVal.vStr "a cat"), ("num_images", JVal.vNum 1),
        ("seed", JVal.vNaN), ("output_format", JVal.vStr "png")] : JObj)
  ∧ serializesToNull JVal.vNaN = true :=
  ⟨rfl, by decide, rfl⟩

/-- C10: the client task history is bounded — after every addToHistory call
the newest task sits at index 0 and the list never exceeds 20 entries, for
every sequence of insertions starting from the empty history. -/
theorem c10_history_bounded (t : HistoryItem) (h : List HistoryItem)
    (ts : List HistoryItem) :
    (addToHistory t h).head? = some t
  ∧ (addToHistory t h).length ≤ 20
  ∧ (ts.foldl (fun acc x => addToHistory x acc) []).length ≤ 20 := by
  refine ⟨?_, addToHistory_length_le t h, ?_⟩
  · unfold addToHistory
    split <;> simp
  · have step : ∀ (l : List HistoryItem) (acc : List HistoryItem), acc.length ≤ 20 →
        (l.foldl (fun acc x => addToHistory x acc) acc).length ≤ 20 := by
      intro l
      induction l with
      | nil => intro acc hacc; simpa using hacc
      | cons a tl ih =>
        intro acc hacc
        simpa using ih (addToHistory a acc) (addToHistory_length_le a acc)
    simpa using step ts [] (by simp)

/-- C1: for a completed task, num_images = 1 gives a TaskView with a single
result_url and a null result_urls collection, num_images > 1 the inverse;
and the client renderer treats exactly these two shapes, rendering the one
URL or the list respectively. -/
theorem c1_result_shape (n : Nat) (urls : List String) (u : String) :
    (n = 1 → urls.length = 1 →
      (taskViewResultFields n urls).1.isSome = true
      ∧ (taskViewResultFields n urls).2 = none)
  ∧ (1 < n →
      (taskViewResultFields n urls).1 = none
      ∧ (taskViewResultFields n urls).2 = some urls)
  ∧ (u ≠ "" → showResult (some u) none = [u])
  ∧ showResult none (some urls) = urls := by
  refine ⟨?_, ?_, ?_, rfl⟩
  · rintro rfl hlen
    cases urls with
    | nil => simp at hlen
    | cons a tl => simp [taskViewResultFields]
  · intro hn
    have : n ≠ 1 := by omega
    simp [taskViewResultFields, this]
  · intro hu
    simp [showResult, hu]

/-- C1 witness: the shape theorem applied at num_images 1 and 2 and at the
two concrete view shapes the renderer receives. -/
theorem c1_result_shape_witness :
    ((taskViewResultFields 1 ["u"]).1.isSome = true
      ∧ (taskViewResultFields 1 ["u"]).2 = none)
  ∧ ((taskViewResultFields 2 ["u", "v"]).1 = none
      ∧ (taskViewResultFields 2 ["u", "v"]).2 = some ["u", "v"])
  ∧ showResult (some "x") none = ["x"]
  ∧ showResult none (some ["u", "v"]) = ["u", "v"] :=
  ⟨(c1_result_shape 1 ["u"] "x").1 rfl rfl,
   (c1_result_shape 2 ["u", "v"] "x").2.1 (by decide),
   (c1_result_shape 1 ["u"] "x").2.2.1 (by decide),
   (c1_result_shape 2 ["u", "v"] "x").2.2.2⟩

/-- C2: when both the explicit prompt and the natural-language text are
absent, admission fails with the ValidationError message `missing prompt`
and no task is created (the registry is unchanged); in the client, both
submit handlers abort before any network call when both trimmed inputs are
empty. -/
theorem c2_missing_prompt (translate : String → String × String) (reg : List Task)
    (f : T2IForm) (g : I2IForm)
    (hfn : jsTrim f.naturalLanguage = "") (hfp : jsTrim f.prompt = "")
    (hgn : jsTrim g.naturalLanguage = "") (hgp : jsTrim g.prompt = "") :
    submitGenerate translate reg none none = (reg, .error "missing prompt")
  ∧ handleText2ImgSubmit f = none
  ∧ handleImg2ImgSubmit g = none := by
  refine ⟨rfl, ?_, ?_⟩
  · simp [handleText2ImgSubmit, finalizeAndSubmit, text2imgFormData, jGet,
      List.find?, truthy, vtruthy, trimOrNull, hfn, hfp]
  · simp [handleImg2ImgSubmit, finalizeAndSubmit, img2imgFormData, jGet,
      List.find?, truthy, vtruthy, trimOrNull, hgn, hgp]

/-- C2 witness: the missing-prompt theorem applied to empty forms and an
empty registry. -/
theorem c2_missing_prompt_witness :
    submitGenerate (fun t => (t, "")) [] none none = ([], .error "missing prompt")
  ∧ handleText2ImgSubmit ⟨" ", "", "", "", "", "", "", "", "", "", "", ""⟩ = none
  ∧ handleImg2ImgSubmit ⟨"", "img", "", "", "", "", "", "", "", "", "", ""⟩ = none :=
  c2_missing_prompt (fun t => (t, "")) []
    ⟨" ", "", "", "", "", "", "", "", "", "", "", ""⟩
    ⟨"", "img", "", "", "", "", "", "", "", "", "", ""⟩
    (by decide) (by decide) (by decide) (by decide)

/-- C3 counterexample: a non-ok response whose body is not parseable JSON and
whose statusText is `Not Found` makes both wrappers throw the message
`Not Found`, not `HTTP 404` — refuting the claim that the fallback for an
unparseable body is `HTTP <status>`. -/
theorem c3_fallback_counterexample :
    generateImage ⟨false, 404, "Not Found", none⟩ = .thrown "Not Found"
  ∧ getTaskStatus ⟨false, 404, "Not Found", none⟩ = .thrown "Not Found"
  ∧ generateImage ⟨false, 404, "Not Found", none⟩ ≠ .thrown ("HTTP " ++ toString (404 : Nat))
  ∧ getTaskStatus ⟨false, 404, "Not Found", none⟩ ≠ .thrown ("HTTP " ++ toString (404 : Nat)) :=
  ⟨rfl, rfl, by decide, by decide⟩

/-- C3 (amended): on a non-ok response both wrappers throw an Error carrying
the parsed body's truthy detail string; when the body is not parseable JSON
the message falls back to the response's statusText if that is non-empty,
and only to `HTTP <status>` when the detail (or that statusText) is falsy;
on an ok response the wrappers return the parsed JSON body. -/
theorem c3_fetch_wrappers (r : JsResponse) :
    (r.ok = true → ∀ obj, r.body = some obj →
      generateImage r = .resolved obj ∧ getTaskStatus r = .resolved obj)
  ∧ (r.ok = false → ∀ obj s, r.body = some obj →
      jGet obj "detail" = some (.vStr s) → s ≠ "" →
      generateImage r = .thrown s ∧ getTaskStatus r = .thrown s)
  ∧ (r.ok = false → ∀ obj, r.body = some obj → truthy (jGet obj "detail") = false →
      generateImage r = .thrown ("HTTP " ++ toString r.status)
      ∧ getTaskStatus r = .thrown ("HTTP " ++ toString r.status))
  ∧ (r.ok = false → r.body = none → r.statusText ≠ "" →
      generateImage r = .thrown r.statusText ∧ getTaskStatus r = .thrown r.statusText)
  ∧ (r.ok = false → r.body = none → r.statusText = "" →
      generateImage r = .thrown ("HTTP " ++ toString r.status)
      ∧ getTaskStatus r = .thrown ("HTTP " ++ toString r.status)) := by
  refine ⟨?_, ?_, ?_, ?_, ?_⟩
  · intro hok obj hb
    constructor <;> simp [generateImage, getTaskStatus, hok, hb]
  · intro hok obj s hb hd hs
    constructor <;>
      simp [generateImage, getTaskStatus, fetchErrMessage, hok, hb, hd, vtruthy, hs,
        jsToString]
  · intro hok obj hb hd
    rcases hv : jGet obj "detail" with _ | v
    · constructor <;> simp [generateImage, getTaskStatus, fetchErrMessage, hok, hb, hv]
    · rw [hv] at hd
      simp [truthy] at hd
      constructor <;> simp [generateImage, getTaskStatus, fetchErrMessage, hok, hb, hv, hd]
  · intro hok hb hs
    constructor <;>
      simp [generateImage, getTaskStatus, fetchErrMessage, hok, hb, vtruthy, hs, jsToString]
  · intro hok hb hs
    constructor <;>
      simp [generateImage, getTaskStatus, fetchErrMessage, hok, hb, vtruthy, hs, jsToString]

/-- C3 witness: the amended wrapper theorem applied to concrete ok,
detail-carrying, falsy-detail, statusText-fallback and empty-statusText
responses. -/
theorem c3_fetch_wrappers_witness :
    (generateImage ⟨true, 200, "OK", some [("task_id", .vStr "t1")]⟩ =
      .resolved [("task_id", .vStr "t1")]
      ∧ getTaskStatus ⟨true, 200, "OK", some [("task_id", .vStr "t1")]⟩ =
        .resolved [("task_id", .vStr "t1")])
  ∧ (generateImage ⟨false, 422, "", some [("detail", .vStr "bad prompt")]⟩ =
      .thrown "bad prompt"
      ∧ getTaskStatus ⟨false, 422, "", some [("detail", .vStr "bad prompt")]⟩ =
        .thrown "bad prompt")
  ∧ (generateImage ⟨false, 500, "x", none⟩ = .thrown "x"
      ∧ getTaskStatus ⟨false, 500, "x", none⟩ = .thrown "x")
  ∧ (generateImage ⟨false, 500, "", none⟩ = .thrown ("HTTP " ++ toString (500 : Nat))
      ∧ getTaskStatus ⟨false, 500, "", none⟩ = .thrown ("HTTP " ++ toString (500 : Nat))) :=
  ⟨(c3_fetch_wrappers ⟨true, 200, "OK", some [("task_id", .vStr "t1")]⟩).1 rfl _ rfl,
   (c3_fetch_wrappers ⟨false, 422, "", some [("detail", .vStr "bad prompt")]⟩).2.1 rfl
     _ "bad prompt" rfl rfl (by decide),
   (c3_fetch_wrappers ⟨false, 500, "x", none⟩).2.2.2.1 rfl rfl (by decide),
   (c3_fetch_wrappers ⟨false, 500, "", none⟩).2.2.2.2 rfl rfl rfl⟩

/-- C4: num_images defaults to 1 when omitted and every supplied value
outside [1,10] is rejected with the ValidationError message
`num_images out of range`; in the client both form builders fill num_images
with `parseInt(value) || 1`, which falls back to 1 on an empty or
unparsable input. -/
theorem c4_num_images (k : Int) (s : String) (f : T2IForm) (g : I2IForm)
    (hk : k < 1 ∨ 10 < k) (hs : jsParseInt s = none) :
    validateNumImages none = .ok 1
  ∧ validateNumImages (some k) = .error "num_images out of range"
  ∧ parseIntOr1 s = .vNum 1
  ∧ parseIntOr1 "" = .vNum 1
  ∧ jGet (text2imgFormData f) "num_images" = some (parseIntOr1 f.numImages)
  ∧ jGet (img2imgFormData g) "num_images" = some (parseIntOr1 g.numImages) := by
  refine ⟨rfl, ?_, ?_, rfl, ?_, ?_⟩
  · have : ¬(1 ≤ k ∧ k ≤ 10) := by omega
    simp [validateNumImages, this]
  · simp [parseIntOr1, hs]
  · simp [jGet, text2imgFormData, List.find?]
  · simp [jGet, img2imgFormData, List.find?]

/-- C4 witness: the num_images theorem applied at the out-of-range value 11
and the unparsable input `abc`. -/
theorem c4_num_images_witness :
    validateNumImages none = .ok 1
  ∧ validateNumImages (some 11) = .error "num_images out of range"
  ∧ parseIntOr1 "abc" = .vNum 1
  ∧ parseIntOr1 "" = .vNum 1
  ∧ jGet (text2imgFormData ⟨"", "", "", "", "", "7", "", "", "", "", "", ""⟩)
      "num_images" = some (parseIntOr1 "7")
  ∧ jGet (img2imgFormData ⟨"", "i", "", "", "3", "", "", "", "", "", "", ""⟩)
      "num_images" = some (parseIntOr1 "3") :=
  c4_num_images 11 "abc"
    ⟨"", "", "", "", "", "7", "", "", "", "", "", ""⟩
    ⟨"", "i", "", "", "3", "", "", "", "", "", "", ""⟩
    (Or.inr (by decide)) (by decide)

/-- C6: an explicit prompt takes priority over the natural-language text —
whenever the trimmed prompt input is non-empty, both submit handlers delete
the natural_language member before the request is sent, so the POSTed body
never carries it and the translator is never consulted. -/
theorem c6_prompt_priority (f : T2IForm) (g : I2IForm) (bf bg : JObj)
    (hf : jsTrim f.prompt ≠ "") (hg : jsTrim g.prompt ≠ "")
    (hbf : handleText2ImgSubmit f = some bf)
    (hbg : handleImg2ImgSubmit g = some bg) :
    "natural_language" ∉ bf.map Prod.fst
  ∧ "natural_language" ∉ bg.map Prod.fst := by
  constructor
  · refine finalize_no_natural_of_prompt _ ?_ _ hbf
    simp [jGet, text2imgFormData, List.find?, truthy, vtruthy, trimOrNull, hf]
  · refine finalize_no_natural_of_prompt _ ?_ _ hbg
    simp [jGet, img2imgFormData, List.find?, truthy, vtruthy, trimOrNull, hg]

/-- C6 witness: the prompt-priority theorem applied to concrete submissions
whose prompt input is `cat`. -/
theorem c6_prompt_priority_witness :
    "natural_language" ∉
      ([("prompt", JVal.vStr "cat"), ("num_images", JVal.vNum 1),
        ("output_format", JVal.vStr "png")] : JObj).map Prod.fst
  ∧ "natural_language" ∉
      ([("init_image", JVal.vStr "img"), ("prompt", JVal.vStr "cat"),
        ("num_images", JVal.vNum 1),
        ("output_format", JVal.vStr "png")] : JObj).map Prod.fst :=
  c6_prompt_priority
    ⟨"desc", "cat", "", "", "", "", "", "", "", "", "", ""⟩
    ⟨"desc", "img", "cat", "", "", "", "", "", "", "", "", ""⟩
    _ _ (by decide) (by decide) rfl rfl

/-- C7: trigger-word injection is idempotent — a prompt already containing
every configured trigger word as an exact substring is returned byte-for-byte
unchanged, and re-running the injection on any injected prompt changes
nothing, so no trigger word is ever duplicated. -/
theorem c7_trigger_injection_idempotent (words : List (List Char)) (p : List Char) :
    ((∀ w ∈ words, w <:+: p) → injectTriggerWords words p = p)
  ∧ injectTriggerWords words (injectTriggerWords words p) =
      injectTriggerWords words p := by
  have hmiss : ∀ q : List Char, (∀ w ∈ words, w <:+: q) →
      missingTriggerWords words q = [] :=
    fun q hq => List.filter_eq_nil_iff.mpr (fun w hw => by simpa using hq w hw)
  constructor
  · intro hall
    unfold injectTriggerWords
    rw [if_pos (hmiss p hall)]
  · have h2 : missingTriggerWords words (injectTriggerWords words p) = [] :=
      hmiss _ (fun w hw => subInInject words p hw)
    have hstep : injectTriggerWords words (injectTriggerWords words p)
        = if missingTriggerWords words (injectTriggerWords words p) = []
          then injectTriggerWords words p
          else List.intercalate twSep
              (missingTriggerWords words (injectTriggerWords words p)) ++ twSep ++
            injectTriggerWords words p := rfl
    rw [hstep, if_pos h2]

/-- C7 witness: the idempotence theorem applied to the one-word configuration
`a` and the already-normalized prompt `ab`. -/
theorem c7_trigger_injection_idempotent_witness :
    injectTriggerWords [['a']] ['a', 'b'] = ['a', 'b'] :=
  (c7_trigger_injection_idempotent [['a']] ['a', 'b']).1 (by decide)

end YunjinSD

